import Mathlib

/-!
Verification of `Replicate/recraft_cli.py`, a command-line wrapper around a
remote image-upscaling model.  The script is embedded shallowly: the remote
client, the environment and the filesystem are parameters of the model, and
the side effects of a run (filesystem probes, stream open/close, the network
call, directory creation, file writes, printing) are recorded as an explicit
event trace.
-/

namespace Recraft

/-- `MODEL_NAME` constant of the script. -/
def MODEL_NAME : String := "recraft-ai/recraft-crisp-upscale"

/-- `DEFAULT_MODE` constant of the script. -/
def DEFAULT_MODE : String := "upscale16mp"

/-- `TOKEN_ENV_VAR` constant of the script. -/
def TOKEN_ENV_VAR : String := "REPLICATE_API_TOKEN"

/-- A Python value as far as `pick_file_like` can observe it:
either an object with a callable `read` attribute (carrying its data and an
optional `url` attribute), a `list`/`tuple` (`seq`), a mapping (`dict`), or
any other non-readable, non-sequence value. -/
inductive Value where
  | readable (data : List Nat) (url : Option String)
  | seq (items : List Value)
  | mapping (pairs : List (String × Value))
  | other (tag : String)

/-- Python errors raised by the script, keeping the exception class and the
message (`str(exc)`). -/
inductive Err where
  | runtimeError (msg : String)
  | fileNotFoundError (msg : String)
  | remoteError (msg : String)

/-- `str(exc)`: the message of the exception. -/
def Err.message : Err → String
  | .runtimeError m => m
  | .fileNotFoundError m => m
  | .remoteError m => m

mutual

/-- `pick_file_like` (lines 41-51): return the value itself if it has a
callable `read`; otherwise, if it is a `list` or `tuple`, recurse into the
items in order; otherwise `None`. -/
def pick_file_like : Value → Option Value
  | .readable data url => some (.readable data url)
  | .seq items => pick_file_like_list items
  | .mapping _ => none
  | .other _ => none

/-- The `for item in value` loop inside `pick_file_like`. -/
def pick_file_like_list : List Value → Option Value
  | [] => none
  | x :: xs =>
    match pick_file_like x with
    | some file_like => some file_like
    | none => pick_file_like_list xs
end

/-- Error message of `read_remote_output`. -/
def unwrapMsg : String := "Replicate response did not return a file-like object."

/-- `read_remote_output` (lines 54-61): find a file-like element, raise
`RuntimeError` if there is none, otherwise return its `read()` bytes and its
`url` attribute (`None` when absent). -/
def read_remote_output (output : Value) : Except Err (List Nat × Option String) :=
  match pick_file_like output with
  | some (.readable data url) => .ok (data, url)
  | _ => .error (.runtimeError unwrapMsg)

mutual

/-- Readable leaves of a value in depth-first left-to-right order: the order
in which the claimed search discipline would encounter readable elements. -/
def depthFirstReadables : Value → List Value
  | .readable data url => [.readable data url]
  | .seq items => depthFirstReadablesList items
  | .mapping _ => []
  | .other _ => []

/-- Depth-first readable leaves of a list of values. -/
def depthFirstReadablesList : List Value → List Value
  | [] => []
  | x :: xs => depthFirstReadables x ++ depthFirstReadablesList xs
end

/-- The value returned by `resolve_image_source`: the URL string unchanged,
or an opened readable byte stream for a resolved local path. -/
inductive ImageSource where
  | url (s : String)
  | stream (path : String)

/-- A value of the `inputs` mapping passed to `client.run`: either a string
or the opened stream. -/
inductive InputVal where
  | str (s : String)
  | stream (path : String)

/-- The JSON values the script prints. -/
inductive Json where
  | null
  | str (s : String)
  | obj (fields : List (String × Json))

/-- An observable side effect of a run. -/
inductive Event where
  | fsCheckExists (path : String)
  | openStream (path : String)
  | closeStream (path : String)
  | networkRun (model : String) (inputs : List (String × InputVal))
  | mkdirParents (path : String)
  | writeFile (path : String) (data : List Nat)
  | printStdout (j : Json)
  | printStderr (j : Json)

/-- The filesystem as the script observes it: `resolve` is
`Path(s).expanduser().resolve()`, `pathExists` is `path.exists()`, and
`parentDirs p` is the set of directories that
`Path(p).parent.mkdir(parents=True, exist_ok=True)` guarantees to exist
(the parent of `p` and all its ancestors). -/
structure FileSystem where
  resolve : String → String
  pathExists : String → Bool
  parentDirs : String → List String

/-- The ambient world of one invocation: the token environment variable, the
filesystem, and the remote service behaviour (`client.run`). -/
structure World where
  envToken : Option String
  fs : FileSystem
  net : String → List (String × InputVal) → Except Err Value

/-- A syntactically valid command line: `--image` and `--output` present,
`--mode` optional. -/
structure Args where
  image : String
  output : String
  mode : Option String

/-- The parsed argument namespace. -/
structure ParsedArgs where
  image : String
  output : String
  mode : String

/-- `parse_args` (lines 15-20): `--mode` defaults to `DEFAULT_MODE`. -/
def parse_args (argv : Args) : ParsedArgs :=
  { image := argv.image, output := argv.output, mode := argv.mode.getD DEFAULT_MODE }

/-- The message of the missing-token error. -/
def tokenMissingMsg : String :=
  "Environment variable " ++ TOKEN_ENV_VAR ++ " is not set."

/-- `ensure_token` (lines 23-27): `os.environ.get` returns `None` when the
variable is absent; `if not token` is true for `None` and for the empty
string. -/
def ensure_token : Option String → Except Err String
  | none => .error (.runtimeError tokenMissingMsg)
  | some token =>
    if token.isEmpty then .error (.runtimeError tokenMissingMsg)
    else .ok token

/-- Python `s.startswith(pre)`: a prefix test on the character sequence. -/
def startswith (s pre : String) : Bool := pre.data.isPrefixOf s.data

/-- `resolve_image_source` (lines 30-38), together with the trace of its
filesystem effects: a `http://`/`https://` prefix returns the string with no
filesystem access; otherwise the path is expanded and resolved, its existence
checked, and the file opened or `FileNotFoundError` raised. -/
def resolve_image_source (fs : FileSystem) (image_arg : String) :
    List Event × Except Err ImageSource :=
  if startswith image_arg "http://" || startswith image_arg "https://" then
    ([], .ok (.url image_arg))
  else
    let path := fs.resolve image_arg
    if fs.pathExists path then
      ([.fsCheckExists path, .openStream path], .ok (.stream path))
    else
      ([.fsCheckExists path],
       .error (.fileNotFoundError ("Source image not found: " ++ path)))

/-- `save_bytes` (lines 64-67) as its effect trace: create the missing parent
directories of `path`, then write `data` to `path`, truncating. -/
def save_bytes (path : String) (data : List Nat) : List Event :=
  [.mkdirParents path, .writeFile path data]

/-- The `hasattr(image_source, "close")` / `close()` step of the `finally`
block: a stream opened by this process is closed, a URL string is not. -/
def closeEvents : ImageSource → List Event
  | .url _ => []
  | .stream p => [.closeStream p]

/-- How an `ImageSource` appears as a value of the `inputs` mapping. -/
def imageInput : ImageSource → InputVal
  | .url s => .str s
  | .stream p => .stream p

/-- The success JSON object built at lines 90-95. -/
def successJson (output_path : String) (remote_url : Option String)
    (message : String) : Json :=
  .obj [("status", .str "ok"),
        ("output_path", .str output_path),
        ("remote_url", match remote_url with | none => .null | some u => .str u),
        ("message", .str message)]

/-- The error JSON object built at lines 105-108. -/
def errorJson (e : Err) : Json :=
  .obj [("status", .str "error"), ("error", .str e.message)]

/-- The `inputs` mapping built at lines 77-80: exactly the two keys
`image` and `upscale`. -/
def mainInputs (mode : String) (src : ImageSource) : List (String × InputVal) :=
  [("image", imageInput src), ("upscale", InputVal.str mode)]

/-- `main` (lines 70-98): the event trace of the run together with its
outcome, `Except.error` standing for a raised exception propagating out of
`main`. -/
def main (w : World) (argv : Args) : List Event × Except Err Int :=
  let args := parse_args argv
  match ensure_token w.envToken with
  | .error e => ([], .error e)
  | .ok _token =>
    match resolve_image_source w.fs args.image with
    | (ev1, .error e) => (ev1, .error e)
    | (ev1, .ok image_source) =>
      let inputs := mainInputs args.mode image_source
      let ev2 := ev1 ++ [Event.networkRun MODEL_NAME inputs] ++ closeEvents image_source
      match w.net MODEL_NAME inputs with
      | .error e => (ev2, .error e)
      | .ok output =>
        match read_remote_output output with
        | .error e => (ev2, .error e)
        | .ok (data, remote_url) =>
          let output_path := w.fs.resolve args.output
          let result := successJson output_path remote_url ("mode=" ++ args.mode)
          (ev2 ++ save_bytes output_path data ++ [Event.printStdout result], .ok 0)

/-- The `if __name__ == "__main__"` guard (lines 101-110): `SystemExit(main())`
passes `main`'s return value through as the exit code; any `Exception` is
turned into the error JSON on standard error and exit code 1. -/
def mainEntry (w : World) (argv : Args) : List Event × Int :=
  match main w argv with
  | (evs, .ok code) => (evs, code)
  | (evs, .error e) => (evs ++ [Event.printStderr (errorJson e)], 1)

/-- Whether an event prints a JSON object. -/
def Event.isPrint : Event → Bool
  | .printStdout _ => true
  | .printStderr _ => true
  | _ => false

/-- Whether an event is the network call. -/
def Event.isNetworkRun : Event → Bool
  | .networkRun _ _ => true
  | _ => false

/-- The path opened by an event, if it opens a stream. -/
def Event.openedPath : Event → Option String
  | .openStream p => some p
  | _ => none

/-- The path closed by an event, if it closes a stream. -/
def Event.closedPath : Event → Option String
  | .closeStream p => some p
  | _ => none

/-- Filesystem contents, for interpreting the effect trace. -/
structure FsState where
  fileContents : String → Option (List Nat)
  dirExists : String → Bool

/-- Interpretation of one event on filesystem contents: `mkdirParents p`
makes the parent directories of `p` exist, `writeFile p data` replaces the
contents at `p` with exactly `data` (truncating semantics of mode `"wb"`). -/
def applyEvent (fs : FileSystem) (st : FsState) : Event → FsState
  | .mkdirParents p =>
    { st with dirExists := fun q => st.dirExists q || (fs.parentDirs p).contains q }
  | .writeFile p data =>
    { st with fileContents := fun q => if q = p then some data else st.fileContents q }
  | _ => st

/-- Interpretation of a trace on filesystem contents. -/
def applyEvents (fs : FileSystem) (st : FsState) (evs : List Event) : FsState :=
  evs.foldl (applyEvent fs) st

/-- A concrete filesystem on which every path exists, for witnesses. -/
def exFs : FileSystem :=
  { resolve := fun s => "/r/" ++ s, pathExists := fun _ => true,
    parentDirs := fun _ => ["/r"] }

/-- A concrete filesystem on which no path exists, for witnesses. -/
def exFsEmpty : FileSystem :=
  { resolve := fun s => "/r/" ++ s, pathExists := fun _ => false,
    parentDirs := fun _ => [] }

/-- A concrete remote service returning one readable object, for witnesses. -/
def exNet : String → List (String × InputVal) → Except Err Value :=
  fun _ _ => .ok (.readable [1, 2, 3] (some "https://replicate/out.webp"))

/-- A concrete world in which a run succeeds, for witnesses. -/
def exWorld : World := { envToken := some "tok", fs := exFs, net := exNet }

/-- A concrete world whose token variable is absent, for witnesses. -/
def exWorldNoToken : World := { exWorld with envToken := none }

/-- A concrete world whose token variable is empty, for witnesses. -/
def exWorldEmptyToken : World := { exWorld with envToken := some "" }

/-- A concrete world whose filesystem is empty, for witnesses. -/
def exWorldNoFile : World := { exWorld with fs := exFsEmpty }

/-- A concrete argument vector with a URL image and no `--mode`, for
witnesses. -/
def exArgs : Args := { image := "https://x/img.png", output := "out.png", mode := none }

/-- A concrete argument vector naming a local file, for witnesses. -/
def exArgsLocal : Args := { image := "img.png", output := "out.png", mode := some "crisp" }

/-- An initially empty filesystem state, for witnesses. -/
def exSt : FsState := { fileContents := fun _ => none, dirExists := fun _ => false }

mutual

/-- `pick_file_like` returns the head of the depth-first readable leaves. -/
theorem pick_eq_dfs_head (v : Value) :
    pick_file_like v = (depthFirstReadables v).head? := by
  cases v with
  | readable d u => rfl
  | seq items =>
    simpa [pick_file_like, depthFirstReadables] using pickList_eq_dfs_head items
  | mapping p => rfl
  | other t => rfl

/-- The loop of `pick_file_like` returns the head of the depth-first
readable leaves of the list. -/
theorem pickList_eq_dfs_head (l : List Value) :
    pick_file_like_list l = (depthFirstReadablesList l).head? := by
  cases l with
  | nil => rfl
  | cons x xs =>
    simp only [pick_file_like_list, depthFirstReadablesList]
    rw [pick_eq_dfs_head x]
    cases h : depthFirstReadables x with
    | nil => simpa using pickList_eq_dfs_head xs
    | cons a t => simp

end

mutual

/-- Every depth-first readable leaf is a `readable` value. -/
theorem dfs_readable (v : Value) :
    ∀ f ∈ depthFirstReadables v, ∃ d u, f = Value.readable d u := by
  cases v with
  | readable d u => intro f hf; simp [depthFirstReadables] at hf; exact ⟨d, u, hf⟩
  | seq items =>
    intro f hf
    simp only [depthFirstReadables] at hf
    exact dfsList_readable items f hf
  | mapping p => intro f hf; simp [depthFirstReadables] at hf
  | other t => intro f hf; simp [depthFirstReadables] at hf

/-- Every depth-first readable leaf of a list is a `readable` value. -/
theorem dfsList_readable (l : List Value) :
    ∀ f ∈ depthFirstReadablesList l, ∃ d u, f = Value.readable d u := by
  cases l with
  | nil => intro f hf; simp [depthFirstReadablesList] at hf
  | cons x xs =>
    intro f hf
    simp only [depthFirstReadablesList, List.mem_append] at hf
    rcases hf with hf | hf
    · exact dfs_readable x f hf
    · exact dfsList_readable xs f hf

end

/-- Whatever `pick_file_like` returns is a `readable` value. -/
theorem pick_readable (v f : Value) (h : pick_file_like v = some f) :
    ∃ d u, f = Value.readable d u := by
  rw [pick_eq_dfs_head] at h
  exact dfs_readable v f (List.mem_of_mem_head? (by simp [h]))

/-- When the search succeeds, `read_remote_output` returns the found
element's data and url. -/
theorem read_of_pick (v : Value) (d : List Nat) (u : Option String)
    (h : pick_file_like v = some (Value.readable d u)) :
    read_remote_output v = .ok (d, u) := by
  simp [read_remote_output, h]

/-- When the search fails, `read_remote_output` raises. -/
theorem read_of_pick_none (v : Value) (h : pick_file_like v = none) :
    read_remote_output v = .error (.runtimeError unwrapMsg) := by
  simp [read_remote_output, h]

/-- The loop of `pick_file_like` skips an element of the sequence in which
the recursive search finds nothing. -/
theorem pick_seq_cons_none (x : Value) (xs : List Value)
    (h : pick_file_like x = none) :
    pick_file_like (Value.seq (x :: xs)) = pick_file_like (Value.seq xs) := by
  simp [pick_file_like, pick_file_like_list, h]

/-- The loop of `pick_file_like` stops at the first element of the sequence
in which the recursive search finds something, whatever follows. -/
theorem pick_seq_cons_some (x : Value) (xs : List Value) (f : Value)
    (h : pick_file_like x = some f) :
    pick_file_like (Value.seq (x :: xs)) = some f := by
  simp [pick_file_like, pick_file_like_list, h]

/-- If no element of a sequence contains a readable value, the search over
the sequence fails. -/
theorem pick_seq_all_none (items : List Value)
    (h : ∀ x ∈ items, pick_file_like x = none) :
    pick_file_like (Value.seq items) = none := by
  simp only [pick_file_like]
  induction items with
  | nil => rfl
  | cons x xs ih =>
    simp only [pick_file_like_list, h x (by simp)]
    exact ih fun y hy => h y (by simp [hy])

/-- C2: For every remote result value, the unwrapper returns the read bytes
of the first element exposing a readable-byte-stream capability — checking
the result value itself first, then, if it is a sequence, each element in
order — together with that element's `url` attribute if present (otherwise
no URL); once a readable element is found, no further elements are
inspected. -/
theorem C2_unwrap_first_readable :
    (∀ d u, read_remote_output (Value.readable d u) = .ok (d, u)) ∧
    (∀ x xs d u, pick_file_like x = some (Value.readable d u) →
        read_remote_output (Value.seq (x :: xs)) = .ok (d, u)) ∧
    (∀ x xs, pick_file_like x = none →
        pick_file_like (Value.seq (x :: xs)) = pick_file_like (Value.seq xs)) ∧
    (∀ v f, pick_file_like v = some f →
        ∃ d u, f = Value.readable d u ∧ read_remote_output v = .ok (d, u)) := by
  refine ⟨fun d u => rfl, fun x xs d u h => ?_, pick_seq_cons_none, fun v f h => ?_⟩
  · exact read_of_pick _ d u (pick_seq_cons_some x xs _ h)
  · obtain ⟨d, u, rfl⟩ := pick_readable v f h
    exact ⟨d, u, rfl, read_of_pick v d u h⟩

/-- Witness for C2 at concrete inputs: a readable first element stops the
search with a further element pending, and a non-readable marker is
skipped. -/
theorem C2_unwrap_first_readable_witness :
    read_remote_output (Value.seq [Value.readable [9, 9] (some "https://example/out.webp"),
        Value.other "rest"]) = .ok ([9, 9], some "https://example/out.webp") ∧
    pick_file_like (Value.seq [Value.other "marker", Value.readable [7] none])
      = pick_file_like (Value.seq [Value.readable [7] none]) :=
  ⟨C2_unwrap_first_readable.2.1 (Value.readable [9, 9] (some "https://example/out.webp"))
      [Value.other "rest"] [9, 9] (some "https://example/out.webp") rfl,
   C2_unwrap_first_readable.2.2.1 (Value.other "marker") [Value.readable [7] none] rfl⟩

/-- C3: For every remote result that is an empty sequence, a sequence with
no readable element, or any non-sequence value without a readable capability
(e.g. a mapping), unwrapping fails with a descriptive UnwrapError and no
bytes are returned. -/
theorem C3_unwrap_failure :
    read_remote_output (Value.seq []) = .error (.runtimeError unwrapMsg) ∧
    (∀ items, (∀ x ∈ items, pick_file_like x = none) →
        read_remote_output (Value.seq items) = .error (.runtimeError unwrapMsg)) ∧
    (∀ pairs, read_remote_output (Value.mapping pairs)
        = .error (.runtimeError unwrapMsg)) ∧
    (∀ tag, read_remote_output (Value.other tag)
        = .error (.runtimeError unwrapMsg)) := by
  refine ⟨rfl, fun items h => ?_, fun pairs => rfl, fun tag => rfl⟩
  exact read_of_pick_none _ (pick_seq_all_none items h)

/-- Witness for C3 at a concrete sequence with no readable element. -/
theorem C3_unwrap_failure_witness :
    read_remote_output (Value.seq [Value.other "a", Value.mapping []])
      = .error (.runtimeError unwrapMsg) := by
  refine C3_unwrap_failure.2.1 [Value.other "a", Value.mapping []] ?_
  intro x hx
  simp only [List.mem_cons, List.not_mem_nil, or_false] at hx
  rcases hx with rfl | rfl <;> rfl

/-- `ensure_token` only ever fails with the missing-token message. -/
theorem ensure_token_error (o : Option String) (e : Err)
    (h : ensure_token o = .error e) : e = .runtimeError tokenMissingMsg := by
  cases o with
  | none =>
    simp only [ensure_token, Except.error.injEq] at h
    exact h.symm
  | some t =>
    by_cases ht : t.isEmpty <;> simp [ensure_token, ht] at h
    exact h.symm

/-- `ensure_token` fails exactly on an absent or empty variable. -/
theorem ensure_token_ok (o : Option String) (t : String)
    (h : ensure_token o = .ok t) : o = some t ∧ ¬t.isEmpty := by
  cases o with
  | none => simp [ensure_token] at h
  | some s =>
    by_cases hs : s.isEmpty <;> simp [ensure_token, hs] at h
    exact ⟨by rw [h], h ▸ hs⟩

/-- The three possible outcomes of `resolve_image_source`. -/
theorem resolve_cases (fs : FileSystem) (s : String) :
    ((startswith s "http://" || startswith s "https://") = true ∧
        resolve_image_source fs s = ([], .ok (.url s))) ∨
    ((startswith s "http://" || startswith s "https://") = false ∧
        fs.pathExists (fs.resolve s) = true ∧
        resolve_image_source fs s =
          ([.fsCheckExists (fs.resolve s), .openStream (fs.resolve s)],
           .ok (.stream (fs.resolve s)))) ∨
    ((startswith s "http://" || startswith s "https://") = false ∧
        fs.pathExists (fs.resolve s) = false ∧
        resolve_image_source fs s =
          ([.fsCheckExists (fs.resolve s)],
           .error (.fileNotFoundError ("Source image not found: " ++ fs.resolve s)))) := by
  by_cases h : (startswith s "http://" || startswith s "https://") = true
  · exact Or.inl ⟨h, by simp [resolve_image_source, h]⟩
  · have h' : (startswith s "http://" || startswith s "https://") = false := by
      simpa using h
    by_cases he : fs.pathExists (fs.resolve s) = true
    · exact Or.inr (Or.inl ⟨h', he, by simp [resolve_image_source, h', he]⟩)
    · have he' : fs.pathExists (fs.resolve s) = false := by simpa using he
      exact Or.inr (Or.inr ⟨h', he', by simp [resolve_image_source, h', he']⟩)

/-- The five possible outcomes of `main`, each with its full event trace. -/
theorem main_cases (w : World) (argv : Args) :
    (main w argv = ([], .error (.runtimeError tokenMissingMsg))) ∨
    (∃ ev1 e, resolve_image_source w.fs argv.image = (ev1, .error e) ∧
        main w argv = (ev1, .error e)) ∨
    (∃ ev1 src e, resolve_image_source w.fs argv.image = (ev1, .ok src) ∧
        w.net MODEL_NAME (mainInputs (parse_args argv).mode src) = .error e ∧
        main w argv =
          (ev1 ++ [Event.networkRun MODEL_NAME (mainInputs (parse_args argv).mode src)]
            ++ closeEvents src, .error e)) ∨
    (∃ ev1 src output e, resolve_image_source w.fs argv.image = (ev1, .ok src) ∧
        w.net MODEL_NAME (mainInputs (parse_args argv).mode src) = .ok output ∧
        read_remote_output output = .error e ∧
        main w argv =
          (ev1 ++ [Event.networkRun MODEL_NAME (mainInputs (parse_args argv).mode src)]
            ++ closeEvents src, .error e)) ∨
    (∃ ev1 src output data url, resolve_image_source w.fs argv.image = (ev1, .ok src) ∧
        w.net MODEL_NAME (mainInputs (parse_args argv).mode src) = .ok output ∧
        read_remote_output output = .ok (data, url) ∧
        main w argv =
          (ev1 ++ [Event.networkRun MODEL_NAME (mainInputs (parse_args argv).mode src)]
            ++ closeEvents src ++ save_bytes (w.fs.resolve argv.output) data
            ++ [Event.printStdout (successJson (w.fs.resolve argv.output) url
                 ("mode=" ++ (parse_args argv).mode))], .ok 0)) := by
  cases h1 : ensure_token w.envToken with
  | error e =>
    have he := ensure_token_error _ _ h1
    subst he
    exact Or.inl (by simp [main, h1])
  | ok t =>
    rcases h2 : resolve_image_source w.fs argv.image with ⟨ev1, res⟩
    cases res with
    | error e =>
      exact Or.inr (Or.inl ⟨ev1, e, rfl, by simp [main, h1, parse_args, h2]⟩)
    | ok src =>
      cases h3 : w.net MODEL_NAME (mainInputs (parse_args argv).mode src) with
      | error e =>
        refine Or.inr (Or.inr (Or.inl ⟨ev1, src, e, rfl, h3, ?_⟩))
        simp only [parse_args] at h3
        simp [main, h1, parse_args, h2, h3]
      | ok output =>
        cases h4 : read_remote_output output with
        | error e =>
          refine Or.inr (Or.inr (Or.inr (Or.inl ⟨ev1, src, output, e, rfl, h3, h4, ?_⟩)))
          simp only [parse_args] at h3
          simp [main, h1, parse_args, h2, h3, h4]
        | ok du =>
          rcases du with ⟨data, url⟩
          refine Or.inr (Or.inr (Or.inr (Or.inr
            ⟨ev1, src, output, data, url, rfl, h3, h4, ?_⟩)))
          simp only [parse_args] at h3
          simp [main, h1, parse_args, h2, h3, h4]

/-- The event list of `resolve_image_source` is one of three shapes. -/
theorem resolve_fst_shape (fs : FileSystem) (s : String) (ev1 : List Event)
    (r : Except Err ImageSource) (h : resolve_image_source fs s = (ev1, r)) :
    ev1 = [] ∨ ev1 = [.fsCheckExists (fs.resolve s)] ∨
    ev1 = [.fsCheckExists (fs.resolve s), .openStream (fs.resolve s)] := by
  rcases resolve_cases fs s with ⟨_, hr⟩ | ⟨_, _, hr⟩ | ⟨_, _, hr⟩
  · exact Or.inl (congrArg Prod.fst (h.symm.trans hr))
  · exact Or.inr (Or.inr (congrArg Prod.fst (h.symm.trans hr)))
  · exact Or.inr (Or.inl (congrArg Prod.fst (h.symm.trans hr)))

/-- When `resolve_image_source` succeeds, either the argument was a URL,
returned unchanged with no filesystem access, or the resolved path existed
and was opened. -/
theorem resolve_ok_shape (fs : FileSystem) (s : String) (ev1 : List Event)
    (src : ImageSource) (h : resolve_image_source fs s = (ev1, .ok src)) :
    ((startswith s "http://" || startswith s "https://") = true ∧
        ev1 = [] ∧ src = .url s) ∨
    ((startswith s "http://" || startswith s "https://") = false ∧
        fs.pathExists (fs.resolve s) = true ∧
        ev1 = [.fsCheckExists (fs.resolve s), .openStream (fs.resolve s)] ∧
        src = .stream (fs.resolve s)) := by
  rcases resolve_cases fs s with ⟨hp, hr⟩ | ⟨hp, hq, hr⟩ | ⟨hp, hq, hr⟩
  · have he := h.symm.trans hr
    exact Or.inl ⟨hp, congrArg Prod.fst he,
      Except.ok.inj (congrArg Prod.snd he)⟩
  · have he := h.symm.trans hr
    exact Or.inr ⟨hp, hq, congrArg Prod.fst he,
      Except.ok.inj (congrArg Prod.snd he)⟩
  · have he := congrArg Prod.snd (h.symm.trans hr)
    exact absurd he (by simp)

/-- When `resolve_image_source` fails, the argument was a non-URL whose
resolved path does not exist; the only filesystem access is the existence
check and the error is the not-found error. -/
theorem resolve_error_shape (fs : FileSystem) (s : String) (ev1 : List Event)
    (e : Err) (h : resolve_image_source fs s = (ev1, .error e)) :
    (startswith s "http://" || startswith s "https://") = false ∧
    fs.pathExists (fs.resolve s) = false ∧
    ev1 = [.fsCheckExists (fs.resolve s)] ∧
    e = .fileNotFoundError ("Source image not found: " ++ fs.resolve s) := by
  rcases resolve_cases fs s with ⟨hp, hr⟩ | ⟨hp, hq, hr⟩ | ⟨hp, hq, hr⟩
  · exact absurd (congrArg Prod.snd (h.symm.trans hr)) (by simp)
  · exact absurd (congrArg Prod.snd (h.symm.trans hr)) (by simp)
  · have he := h.symm.trans hr
    exact ⟨hp, hq, congrArg Prod.fst he,
      Except.error.inj (congrArg Prod.snd he)⟩

/-- The resolver's events never print. -/
theorem resolve_fst_no_print (fs : FileSystem) (s : String) (ev1 : List Event)
    (r : Except Err ImageSource) (h : resolve_image_source fs s = (ev1, r)) :
    ev1.filter Event.isPrint = [] := by
  rcases resolve_fst_shape fs s ev1 r h with h' | h' | h' <;> subst h' <;> rfl

/-- The resolver's events are never the network call. -/
theorem resolve_fst_no_net (fs : FileSystem) (s : String) (ev1 : List Event)
    (r : Except Err ImageSource) (h : resolve_image_source fs s = (ev1, r)) :
    ev1.countP Event.isNetworkRun = 0 := by
  rcases resolve_fst_shape fs s ev1 r h with h' | h' | h' <;> subst h' <;> rfl

/-- The close step never prints. -/
theorem closeEvents_no_print (src : ImageSource) :
    (closeEvents src).filter Event.isPrint = [] := by
  cases src <;> rfl

/-- The close step never performs the network call. -/
theorem closeEvents_no_net (src : ImageSource) :
    (closeEvents src).countP Event.isNetworkRun = 0 := by
  cases src <;> rfl

/-- C1: For every invocation: on success, exactly one JSON object
`{"status":"ok","output_path":...,"remote_url":...,"message":...}` is
printed to standard output and the process exits with code 0; on any raised
failure, exactly one JSON object `{"status":"error","error":<message>}` is
printed to standard error and the process exits with code 1; exactly one
JSON object is ever printed per invocation. -/
theorem C1_single_report (w : World) (argv : Args) :
    ((mainEntry w argv).1.filter Event.isPrint).length = 1 ∧
    (((mainEntry w argv).2 = 0 ∧ ∃ p u m,
        (mainEntry w argv).1.filter Event.isPrint
          = [Event.printStdout (successJson p u m)]) ∨
     ((mainEntry w argv).2 = 1 ∧ ∃ e,
        (mainEntry w argv).1.filter Event.isPrint
          = [Event.printStderr (errorJson e)])) := by
  rcases main_cases w argv with hm | ⟨ev1, e, hres, hm⟩ |
      ⟨ev1, src, e, hres, hnet, hm⟩ | ⟨ev1, src, output, e, hres, hnet, hread, hm⟩ |
      ⟨ev1, src, output, data, url, hres, hnet, hread, hm⟩
  · simp only [mainEntry, hm]
    refine ⟨?_, Or.inr ⟨?_, Err.runtimeError tokenMissingMsg, ?_⟩⟩ <;>
      simp [Event.isPrint]
  · have h1 := resolve_fst_no_print _ _ _ _ hres
    simp only [mainEntry, hm]
    refine ⟨?_, Or.inr ⟨?_, e, ?_⟩⟩ <;>
      simp [List.filter_append, h1, Event.isPrint]
  · have h1 := resolve_fst_no_print _ _ _ _ hres
    simp only [mainEntry, hm]
    refine ⟨?_, Or.inr ⟨?_, e, ?_⟩⟩ <;>
      simp [List.filter_append, h1, closeEvents_no_print, Event.isPrint]
  · have h1 := resolve_fst_no_print _ _ _ _ hres
    simp only [mainEntry, hm]
    refine ⟨?_, Or.inr ⟨?_, e, ?_⟩⟩ <;>
      simp [List.filter_append, h1, closeEvents_no_print, Event.isPrint]
  · have h1 := resolve_fst_no_print _ _ _ _ hres
    simp only [mainEntry, hm]
    refine ⟨?_, Or.inl ⟨?_, w.fs.resolve argv.output, url,
      "mode=" ++ (parse_args argv).mode, ?_⟩⟩ <;>
      simp [List.filter_append, h1, closeEvents_no_print, save_bytes, Event.isPrint]

/-- C10: The file-like search recurses depth-first into nested lists and
tuples, so for every result value containing a readable element at any
nesting depth (not only a flat sequence), unwrapping finds the first such
element in depth-first left-to-right order. -/
theorem C10_depth_first_search (v : Value) :
    pick_file_like v = (depthFirstReadables v).head? :=
  pick_eq_dfs_head v

/-- C4: For every user-supplied image string: if it begins with `http://` or
`https://` the resolver returns the string unchanged with no filesystem
access; otherwise the string is expanded and resolved to an absolute path,
and the resolver returns an opened readable byte stream for it if the path
exists, or fails with NotFoundError — with no network call made — if it
does not. -/
theorem C4_resolve_image_source (fs : FileSystem) (s : String)
    (w : World) (argv : Args) :
    ((startswith s "http://" || startswith s "https://") = true →
        resolve_image_source fs s = ([], .ok (.url s))) ∧
    ((startswith s "http://" || startswith s "https://") = false →
        fs.pathExists (fs.resolve s) = true →
        resolve_image_source fs s =
          ([.fsCheckExists (fs.resolve s), .openStream (fs.resolve s)],
           .ok (.stream (fs.resolve s)))) ∧
    ((startswith s "http://" || startswith s "https://") = false →
        fs.pathExists (fs.resolve s) = false →
        resolve_image_source fs s =
          ([.fsCheckExists (fs.resolve s)],
           .error (.fileNotFoundError ("Source image not found: " ++ fs.resolve s)))) ∧
    ((startswith argv.image "http://" || startswith argv.image "https://") = false →
        w.fs.pathExists (w.fs.resolve argv.image) = false →
        (mainEntry w argv).1.countP Event.isNetworkRun = 0) := by
  refine ⟨fun hp => by simp [resolve_image_source, hp],
          fun hp he => by simp [resolve_image_source, hp, he],
          fun hp he => by simp [resolve_image_source, hp, he],
          fun hp he => ?_⟩
  rcases main_cases w argv with hm | ⟨ev1, e, hres, hm⟩ |
      ⟨ev1, src, e, hres, hnet, hm⟩ | ⟨ev1, src, output, e, hres, hnet, hread, hm⟩ |
      ⟨ev1, src, output, data, url, hres, hnet, hread, hm⟩
  · simp [mainEntry, hm, Event.isNetworkRun]
  · obtain ⟨-, -, hev1, -⟩ := resolve_error_shape _ _ _ _ hres
    subst hev1
    simp [mainEntry, hm, Event.isNetworkRun]
  all_goals
    rcases resolve_ok_shape _ _ _ _ hres with ⟨hp', -⟩ | ⟨-, he', -⟩
  all_goals first
    | exact absurd hp' (by simp [hp])
    | exact absurd he' (by simp [he])

/-- Witness for C4 at concrete inputs: a URL image, an existing local file,
and a missing local file; the missing file also makes the whole run
network-free. -/
theorem C4_resolve_image_source_witness :
    resolve_image_source exFs "https://x/img.png"
      = ([], .ok (.url "https://x/img.png")) ∧
    resolve_image_source exFs "img.png"
      = ([.fsCheckExists "/r/img.png", .openStream "/r/img.png"],
         .ok (.stream "/r/img.png")) ∧
    resolve_image_source exFsEmpty "img.png"
      = ([.fsCheckExists "/r/img.png"],
         .error (.fileNotFoundError "Source image not found: /r/img.png")) ∧
    (mainEntry exWorldNoFile exArgsLocal).1.countP Event.isNetworkRun = 0 :=
  ⟨(C4_resolve_image_source exFs "https://x/img.png" exWorld exArgs).1 rfl,
   (C4_resolve_image_source exFs "img.png" exWorld exArgs).2.1 rfl rfl,
   (C4_resolve_image_source exFsEmpty "img.png" exWorld exArgs).2.2.1 rfl rfl,
   (C4_resolve_image_source exFs "img.png" exWorldNoFile exArgsLocal).2.2.2 rfl rfl⟩

/-- C5: For every invocation in which the API token environment variable is
absent, the program fails with a fatal configuration error before any
network call is attempted, exits with code 1, and prints the
`{"status":"error",...}` JSON object to standard error. -/
theorem C5_missing_token (w : World) (argv : Args) (h : w.envToken = none) :
    mainEntry w argv
      = ([Event.printStderr (errorJson (.runtimeError tokenMissingMsg))], 1) ∧
    (mainEntry w argv).1.countP Event.isNetworkRun = 0 := by
  have he : ensure_token w.envToken = .error (.runtimeError tokenMissingMsg) := by
    rw [h]; rfl
  have hm : main w argv = ([], .error (.runtimeError tokenMissingMsg)) := by
    simp [main, he]
  exact ⟨by simp [mainEntry, hm], by simp [mainEntry, hm, Event.isNetworkRun]⟩

/-- Witness for C5 at a concrete world with the token variable absent. -/
theorem C5_missing_token_witness :
    mainEntry exWorldNoToken exArgs
      = ([Event.printStderr (errorJson (.runtimeError tokenMissingMsg))], 1) ∧
    (mainEntry exWorldNoToken exArgs).1.countP Event.isNetworkRun = 0 :=
  C5_missing_token exWorldNoToken exArgs rfl

/-- C6: For every invocation in which the resolver opened a local input
byte stream, that stream is closed exactly once on every exit path of the
remote-invocation step (success, remote failure, and any later unwrap
failure); when the image source is a URL string, no close is attempted. -/
theorem C6_stream_closed_once (w : World) (argv : Args) :
    ((mainEntry w argv).1.filterMap Event.closedPath
       = (mainEntry w argv).1.filterMap Event.openedPath) ∧
    ((startswith argv.image "http://" || startswith argv.image "https://") = true →
        (mainEntry w argv).1.filterMap Event.closedPath = []) := by
  rcases main_cases w argv with hm | ⟨ev1, e, hres, hm⟩ |
      ⟨ev1, src, e, hres, hnet, hm⟩ | ⟨ev1, src, output, e, hres, hnet, hread, hm⟩ |
      ⟨ev1, src, output, data, url, hres, hnet, hread, hm⟩
  · simp [mainEntry, hm, Event.closedPath, Event.openedPath]
  · obtain ⟨-, -, hev1, -⟩ := resolve_error_shape _ _ _ _ hres
    subst hev1
    simp [mainEntry, hm, Event.closedPath, Event.openedPath]
  all_goals
    rcases resolve_ok_shape _ _ _ _ hres with ⟨hp', hev1, hsrc⟩ | ⟨hp', -, hev1, hsrc⟩ <;>
      subst hev1 <;> subst hsrc <;>
      constructor <;>
      simp [mainEntry, hm, closeEvents, save_bytes, Event.closedPath,
        Event.openedPath, hp']

/-- Witness for C6 at concrete runs: a local file (opened and closed once)
and a URL image (nothing closed). -/
theorem C6_stream_closed_once_witness :
    ((mainEntry exWorld exArgsLocal).1.filterMap Event.closedPath
       = (mainEntry exWorld exArgsLocal).1.filterMap Event.openedPath) ∧
    (mainEntry exWorld exArgs).1.filterMap Event.closedPath = [] :=
  ⟨(C6_stream_closed_once exWorld exArgsLocal).1,
   (C6_stream_closed_once exWorld exArgs).2 rfl⟩

/-- C7: For every invocation, the remote invoker calls the fixed named
model with a configuration mapping of exactly two options — `image` bound
to the resolved source and `upscale` bound to the mode string, which
defaults to "upscale16mp" when `--mode` is not given — and the network call
occurs at most once per invocation. -/
theorem C7_network_call (w : World) (argv : Args) :
    (mainEntry w argv).1.countP Event.isNetworkRun ≤ 1 ∧
    (∀ m ins, Event.networkRun m ins ∈ (mainEntry w argv).1 →
        m = MODEL_NAME ∧
        ∃ src, (resolve_image_source w.fs argv.image).2 = .ok src ∧
          ins = mainInputs (parse_args argv).mode src) ∧
    (argv.mode = none → (parse_args argv).mode = DEFAULT_MODE) := by
  refine ⟨?_, ?_, fun hmode => by simp [parse_args, hmode]⟩ <;>
    rcases main_cases w argv with hm | ⟨ev1, e, hres, hm⟩ |
        ⟨ev1, src, e, hres, hnet, hm⟩ | ⟨ev1, src, output, e, hres, hnet, hread, hm⟩ |
        ⟨ev1, src, output, data, url, hres, hnet, hread, hm⟩
  · simp [mainEntry, hm, Event.isNetworkRun]
  · obtain ⟨-, -, hev1, -⟩ := resolve_error_shape _ _ _ _ hres
    subst hev1
    simp [mainEntry, hm, Event.isNetworkRun]
  · rcases resolve_fst_shape _ _ _ _ hres with h' | h' | h' <;> subst h' <;>
      cases src <;>
      simp [mainEntry, hm, closeEvents, save_bytes, Event.isNetworkRun]
  · rcases resolve_fst_shape _ _ _ _ hres with h' | h' | h' <;> subst h' <;>
      cases src <;>
      simp [mainEntry, hm, closeEvents, save_bytes, Event.isNetworkRun]
  · rcases resolve_fst_shape _ _ _ _ hres with h' | h' | h' <;> subst h' <;>
      cases src <;>
      simp [mainEntry, hm, closeEvents, save_bytes, Event.isNetworkRun]
  · intro m ins hmem
    simp [mainEntry, hm] at hmem
  · obtain ⟨-, -, hev1, -⟩ := resolve_error_shape _ _ _ _ hres
    subst hev1
    intro m ins hmem
    simp [mainEntry, hm] at hmem
  all_goals
    intro m ins hmem
  all_goals
    rcases resolve_ok_shape _ _ _ _ hres with ⟨hp', hev1, hsrc⟩ | ⟨hp', hex, hev1, hsrc⟩ <;>
      subst hev1 <;> subst hsrc <;>
      simp [mainEntry, hm, closeEvents, save_bytes] at hmem <;>
      exact ⟨hmem.1, _, congrArg Prod.snd hres, hmem.2⟩

/-- Witness for C7 at a concrete run: the network event of a successful
invocation carries the fixed model name and the two-option mapping, and an
absent `--mode` defaults. -/
theorem C7_network_call_witness :
    ("recraft-ai/recraft-crisp-upscale" = MODEL_NAME ∧
      ∃ src, (resolve_image_source exWorld.fs exArgs.image).2 = .ok src ∧
        [("image", InputVal.str "https://x/img.png"),
         ("upscale", InputVal.str "upscale16mp")]
          = mainInputs (parse_args exArgs).mode src) ∧
    (parse_args exArgs).mode = DEFAULT_MODE :=
  ⟨(C7_network_call exWorld exArgs).2.1 "recraft-ai/recraft-crisp-upscale"
      [("image", InputVal.str "https://x/img.png"),
       ("upscale", InputVal.str "upscale16mp")]
      (List.mem_cons_self _ _),
   (C7_network_call exWorld exArgs).2.2 rfl⟩

/-- If the trace contains a network call, `ensure_token` succeeded. -/
theorem main_net_token (w : World) (argv : Args)
    (h : 0 < (mainEntry w argv).1.countP Event.isNetworkRun) :
    ∃ t, ensure_token w.envToken = .ok t := by
  cases h1 : ensure_token w.envToken with
  | ok t => exact ⟨t, rfl⟩
  | error e =>
    have he := ensure_token_error _ _ h1
    subst he
    have hm : main w argv = ([], .error (.runtimeError tokenMissingMsg)) := by
      simp [main, h1]
    simp [mainEntry, hm, Event.isNetworkRun] at h

/-- C9: When the API token environment variable is present but set to the
empty string, the program treats it exactly like an absent token: it raises
the same configuration error before any network call, so a non-empty token
is a precondition for reaching the remote invocation. -/
theorem C9_empty_token :
    (∀ w argv, w.envToken = some "" →
        mainEntry w argv = mainEntry { w with envToken := none } argv ∧
        mainEntry w argv
          = ([Event.printStderr (errorJson (.runtimeError tokenMissingMsg))], 1)) ∧
    (∀ w argv, 0 < (mainEntry w argv).1.countP Event.isNetworkRun →
        ∃ t, w.envToken = some t ∧ ¬t.isEmpty) := by
  constructor
  · intro w argv h
    have he : ensure_token w.envToken = .error (.runtimeError tokenMissingMsg) := by
      rw [h]; rfl
    have hm : main w argv = ([], .error (.runtimeError tokenMissingMsg)) := by
      simp [main, he]
    have hm' : main { w with envToken := none } argv
        = ([], .error (.runtimeError tokenMissingMsg)) := by
      simp [main, ensure_token]
    exact ⟨by simp [mainEntry, hm, hm'], by simp [mainEntry, hm]⟩
  · intro w argv h
    obtain ⟨t, ht⟩ := main_net_token w argv h
    exact ⟨t, (ensure_token_ok _ _ ht).1, (ensure_token_ok _ _ ht).2⟩

/-- Witness for C9 at concrete worlds: an empty token behaves like an
absent one, and a world whose run reaches the network has a non-empty
token. -/
theorem C9_empty_token_witness :
    (mainEntry exWorldEmptyToken exArgs
        = mainEntry { exWorldEmptyToken with envToken := none } exArgs ∧
      mainEntry exWorldEmptyToken exArgs
        = ([Event.printStderr (errorJson (.runtimeError tokenMissingMsg))], 1)) ∧
    ∃ t, exWorld.envToken = some t ∧ ¬t.isEmpty :=
  ⟨C9_empty_token.1 exWorldEmptyToken exArgs rfl,
   C9_empty_token.2 exWorld exArgs (by decide)⟩

/-- `applyEvents` distributes over trace concatenation. -/
theorem applyEvents_append (fs : FileSystem) (st : FsState) (a b : List Event) :
    applyEvents fs st (a ++ b) = applyEvents fs (applyEvents fs st a) b :=
  List.foldl_append _ _ _ _

/-- The resolver's events do not change filesystem contents. -/
theorem applyEvents_resolve (fs' : FileSystem) (st : FsState)
    (fs : FileSystem) (s : String) (ev1 : List Event) (r : Except Err ImageSource)
    (h : resolve_image_source fs s = (ev1, r)) :
    applyEvents fs' st ev1 = st := by
  rcases resolve_fst_shape fs s ev1 r h with h' | h' | h' <;> subst h' <;> rfl

/-- C8: For every successful run, the persister creates all missing parent
directories of the resolved output path, then writes exactly the bytes
returned by the unwrapper to that path, truncating any existing file
there. -/
theorem C8_persist (w : World) (argv : Args) (st : FsState)
    (h : (mainEntry w argv).2 = 0) :
    ∃ data,
      (∃ ins output remote_url, w.net MODEL_NAME ins = .ok output ∧
          read_remote_output output = .ok (data, remote_url)) ∧
      (applyEvents w.fs st (mainEntry w argv).1).fileContents
          (w.fs.resolve argv.output) = some data ∧
      ∀ d ∈ w.fs.parentDirs (w.fs.resolve argv.output),
        (applyEvents w.fs st (mainEntry w argv).1).dirExists d = true := by
  rcases main_cases w argv with hm | ⟨ev1, e, hres, hm⟩ |
      ⟨ev1, src, e, hres, hnet, hm⟩ | ⟨ev1, src, output, e, hres, hnet, hread, hm⟩ |
      ⟨ev1, src, output, data, url, hres, hnet, hread, hm⟩
  · simp [mainEntry, hm] at h
  · simp [mainEntry, hm] at h
  · simp [mainEntry, hm] at h
  · simp [mainEntry, hm] at h
  · refine ⟨data, ⟨_, output, url, hnet, hread⟩, ?_, ?_⟩
    · simp only [mainEntry, hm]
      simp only [applyEvents_append]
      rw [applyEvents_resolve w.fs st _ _ _ _ hres]
      cases src <;>
        simp [applyEvents, closeEvents, save_bytes, applyEvent]
    · intro d hd
      have hc : (w.fs.parentDirs (w.fs.resolve argv.output)).contains d = true :=
        List.elem_eq_true_of_mem hd
      simp only [mainEntry, hm]
      simp only [applyEvents_append]
      rw [applyEvents_resolve w.fs st _ _ _ _ hres]
      cases src <;>
        simp [applyEvents, closeEvents, save_bytes, applyEvent, hc] <;>
        exact Or.inr hd

/-- Witness for C8 at a concrete successful run: the written contents and
the created directories of the final filesystem state. -/
theorem C8_persist_witness :
    (mainEntry exWorld exArgs).2 = 0 ∧
    ∃ data,
      (∃ ins output remote_url, exWorld.net MODEL_NAME ins = .ok output ∧
          read_remote_output output = .ok (data, remote_url)) ∧
      (applyEvents exWorld.fs exSt (mainEntry exWorld exArgs).1).fileContents
          (exWorld.fs.resolve exArgs.output) = some data ∧
      ∀ d ∈ exWorld.fs.parentDirs (exWorld.fs.resolve exArgs.output),
        (applyEvents exWorld.fs exSt (mainEntry exWorld exArgs).1).dirExists d = true :=
  ⟨rfl, C8_persist exWorld exArgs exSt rfl⟩

end Recraft
